import Mathlib

/-!
Verification of the flash-list layout core against its specification.

Shallow embedding of:
  - src/utils/ContentContainerUtils.ts  (updateContentStyle,
    applyContentContainerInsetForLayoutManager, getContentContainerPadding)
  - src/GridLayoutProviderWithProps.ts  (constructor, updateProps, markExpired,
    reportItemLayout, newLayoutManager, getCleanLayoutObj, averageItemSize)
  - src/FlashList.tsx                   (validateProps, getLayoutProvider)

JavaScript numbers are modelled as rationals (no NaN or Infinity: the claims
concern numeric padding and size values). Optional JS values are `Option`.
The AverageWindow class and the FlashListProps type are files of this
repository that are not part of the inspected sources; they are modelled from
the specification where indicated.
-/

/-- JavaScript truthiness-based `a || b` on an optional number: a value is
falsy when it is absent or equals 0, in which case the right operand wins. -/
def jsOr (a b : Option ℚ) : Option ℚ :=
  match a with
  | none => b
  | some v => if v = 0 then b else some v

/-- JavaScript `Math.round` on a finite number: round half toward positive
infinity, i.e. the floor of `q + 1/2`. -/
def jsRound (q : ℚ) : ℤ := ⌊q + 1/2⌋

/-- A viewport dimension, as in recyclerlistview `Dimension`. -/
structure Dimension where
  width : ℚ
  height : ℚ
deriving DecidableEq, Repr

/-- The generic content-container style: the seven padding keys and the
background color, each possibly absent (TS `ContentStyle`). -/
structure ContentStyle where
  paddingTop : Option ℚ := none
  paddingBottom : Option ℚ := none
  paddingLeft : Option ℚ := none
  paddingRight : Option ℚ := none
  padding : Option ℚ := none
  paddingVertical : Option ℚ := none
  paddingHorizontal : Option ℚ := none
  backgroundColor : Option String := none
deriving DecidableEq, Repr

/-- Fully resolved numeric paddings (TS `ContentStyleExplicit`). -/
structure ContentStyleExplicit where
  paddingTop : ℚ
  paddingBottom : ℚ
  paddingLeft : ℚ
  paddingRight : ℚ
  backgroundColor : Option String
deriving DecidableEq, Repr

/-- Embedding of `updateContentStyle` (ContentContainerUtils.ts, lines 31-75).
The TS function mutates the `contentStyle` object passed to it and returns it;
since it assigns every one of the five output fields, the result is a function
of the source style alone, and the in-place mutation is represented by
returning the new value. Each edge is resolved with the JS `||` chain
`edge || axis || uniform || 0` and the background color is copied through. -/
def updateContentStyle (contentContainerStyleSource : Option ContentStyle) :
    ContentStyleExplicit :=
  let src := contentContainerStyleSource.getD {}
  { paddingLeft :=
      (jsOr src.paddingLeft (jsOr src.paddingHorizontal src.padding)).getD 0
    paddingRight :=
      (jsOr src.paddingRight (jsOr src.paddingHorizontal src.padding)).getD 0
    paddingTop :=
      (jsOr src.paddingTop (jsOr src.paddingVertical src.padding)).getD 0
    paddingBottom :=
      (jsOr src.paddingBottom (jsOr src.paddingVertical src.padding)).getD 0
    backgroundColor := src.backgroundColor }

/-- Embedding of `applyContentContainerInsetForLayoutManager`
(ContentContainerUtils.ts, lines 115-133). The TS function mutates `dim` and
returns it; the mutation is represented by returning the updated value. -/
def applyContentContainerInsetForLayoutManager (dim : Dimension)
    (contentContainerStyle : Option ContentStyle) (horizontal : Bool) :
    Dimension :=
  let contentStyle := updateContentStyle contentContainerStyle
  if horizontal then
    { dim with
      height := dim.height - (contentStyle.paddingTop + contentStyle.paddingBottom) }
  else
    { dim with
      width := dim.width - (contentStyle.paddingLeft + contentStyle.paddingRight) }

/-- The padding object returned by `getContentContainerPadding`: exactly two of
the four edges are present, depending on orientation. -/
structure ContentContainerPadding where
  paddingTop : Option ℚ := none
  paddingBottom : Option ℚ := none
  paddingLeft : Option ℚ := none
  paddingRight : Option ℚ := none
deriving DecidableEq, Repr

/-- Embedding of `getContentContainerPadding` (ContentContainerUtils.ts,
lines 139-162). -/
def getContentContainerPadding (contentStyle : ContentStyleExplicit)
    (horizontal : Bool) : ContentContainerPadding :=
  if horizontal then
    { paddingTop := some contentStyle.paddingTop
      paddingBottom := some contentStyle.paddingBottom }
  else
    { paddingLeft := some contentStyle.paddingLeft
      paddingRight := some contentStyle.paddingRight }

/-- Resolution of one padding edge as the specification (amended) describes it:
the first candidate in the list that is present and nonzero wins, otherwise 0.
This definition follows the spec words, for comparison with
`updateContentStyle`, which is translated from the source. -/
def firstTruthy : List (Option ℚ) → ℚ
  | [] => 0
  | none :: rest => firstTruthy rest
  | some v :: rest => if v = 0 then firstTruthy rest else v

/-- The FlashList props fields that the layout core reads. The `FlashListProps`
type itself is a repository file outside the inspected sources; the fields are
modelled from the spec's interface contract: `numColumns` optional number,
`horizontal` boolean flag, `estimatedItemSize` optional number,
`contentContainerStyle` optional style, `onRefresh` a callback whose presence
alone matters here, `refreshing` either a boolean value or not a boolean
(absent or null), `stickyHeaderIndices` an optional index list. -/
structure FLProps where
  numColumns : Option ℕ := none
  horizontal : Bool := false
  estimatedItemSize : Option ℚ := none
  contentContainerStyle : Option ContentStyle := none
  onRefresh : Bool := false
  refreshing : Option Bool := none
  stickyHeaderIndices : Option (List ℕ) := none
deriving DecidableEq, Repr

/-- Modelled from the spec: the AverageWindow class
(src/utils/AverageWindow.ts is not among the inspected sources). Per spec
section 4.1 and the Average Window data model, it is constructed from a window
size and a seed, `addValue` folds one sample in, and `currentValue` equals the
seed while no sample has been added; the exact decay function is left open by
the spec, so recorded samples are kept as a list (most recent first) and the
average uses the equal-weight window of spec Scenario C. -/
structure AverageWindow where
  size : ℤ
  seed : ℚ
  samples : List ℚ
deriving DecidableEq, Repr

/-- Modelled from the spec: AverageWindow construction from a window size and
a seed value, with no samples yet. -/
def AverageWindow.create (size : ℤ) (seed : ℚ) : AverageWindow :=
  ⟨size, seed, []⟩

/-- Modelled from the spec: `addValue` records one measured sample. -/
def AverageWindow.addValue (w : AverageWindow) (v : ℚ) : AverageWindow :=
  { w with samples := v :: w.samples }

/-- Modelled from the spec: `currentValue` falls back to the seed when no
sample was added; otherwise it is the equal-weight mean of the window, with
the seed filling the slots not yet covered by samples (spec Scenario C). -/
def AverageWindow.currentValue (w : AverageWindow) : ℚ :=
  match w.samples with
  | [] => w.seed
  | _ =>
    let n := w.size.toNat
    if n = 0 then w.seed
    else
      let recent := w.samples.take n
      (recent.sum + w.seed * ((n : ℚ) - (recent.length : ℚ))) / (n : ℚ)

/-- The mutable scratch record `{span, size}` shared by the three per-index
callbacks. -/
structure MutableLayout where
  span : Option ℤ := none
  size : Option ℚ := none
deriving DecidableEq, Repr

/-- The reset scratch record produced by `getCleanLayoutObj`
(GridLayoutProviderWithProps.ts, lines 243-247): both fields undefined. -/
def getCleanLayoutObj : MutableLayout := {}

/-- One layout entry owned by the external layout manager, with the fields
`reportItemLayout` reads and writes. -/
structure LayoutEntry where
  width : ℚ
  height : ℚ
  isOverridden : Bool := false
deriving DecidableEq, Repr

/-- The mutable state of a `GridLayoutProviderWithProps` instance:
its stored props, the shared scratch record, the estimator, the stored
layout-affecting insets, the expiry flag, and the layout entries of the
current layout manager (`none` when no layout manager exists yet). -/
structure ProviderState where
  props : FLProps
  layoutObject : MutableLayout
  averageWindow : AverageWindow
  renderWindowInsets : Dimension
  hasExpired : Bool
  layouts : Option (List LayoutEntry)
deriving DecidableEq, Repr

/-- Embedding of the `GridLayoutProviderWithProps` constructor
(GridLayoutProviderWithProps.ts, lines 43-94): `_hasExpired` starts false, the
estimator is a fresh AverageWindow of size 1 seeded with
`props.estimatedItemSize ?? defaultEstimatedItemSize` (the default is 100),
and `renderWindowInsets` is the zero dimension with the layout-affecting
insets applied. No layout manager exists yet. -/
def mkProvider (props : FLProps) : ProviderState :=
  { props := props
    layoutObject := {}
    averageWindow := AverageWindow.create 1 (props.estimatedItemSize.getD 100)
    renderWindowInsets :=
      applyContentContainerInsetForLayoutManager ⟨0, 0⟩
        props.contentContainerStyle props.horizontal
    hasExpired := false
    layouts := none }

/-- Embedding of `updateProps` (GridLayoutProviderWithProps.ts, lines
101-124): recompute the layout-affecting insets from the new props, OR the
expiry flag with `numColumns` change and inset change, then store the new
insets and props. The TS method returns `this`; returning the updated state
models that. -/
def updateProps (s : ProviderState) (props : FLProps) : ProviderState :=
  let newInsetValues :=
    applyContentContainerInsetForLayoutManager ⟨0, 0⟩
      props.contentContainerStyle props.horizontal
  { s with
    hasExpired := s.hasExpired
      || decide (s.props.numColumns ≠ props.numColumns)
      || decide (newInsetValues.height ≠ s.renderWindowInsets.height)
      || decide (newInsetValues.width ≠ s.renderWindowInsets.width)
    renderWindowInsets := newInsetValues
    props := props }

/-- Embedding of `markExpired` (GridLayoutProviderWithProps.ts, lines
140-142). -/
def markExpired (s : ProviderState) : ProviderState :=
  { s with hasExpired := true }

/-- Embedding of `reportItemLayout` (GridLayoutProviderWithProps.ts, lines
152-164): look up the current layout manager entry for `index`; when present,
set `isOverridden` and feed the scroll-axis size (width when horizontal,
height otherwise) to the estimator; otherwise do nothing. The function is
total: the TS method never throws. -/
def reportItemLayout (s : ProviderState) (index : ℕ) : ProviderState :=
  match s.layouts with
  | none => s
  | some ls =>
    match ls[index]? with
    | none => s
    | some layout =>
      { s with
        layouts := some (ls.set index { layout with isOverridden := true })
        averageWindow := s.averageWindow.addValue
          (if s.props.horizontal then layout.width else layout.height) }

/-- Embedding of the `averageItemSize` getter (GridLayoutProviderWithProps.ts,
lines 169-171). -/
def averageItemSize (s : ProviderState) : ℚ :=
  s.averageWindow.currentValue

/-- JavaScript `numColumns || 1`: 1 when the value is absent or 0. -/
def jsNumColumns (numColumns : Option ℕ) : ℕ :=
  match numColumns with
  | none => 1
  | some n => if n = 0 then 1 else n

/-- Embedding of the estimator replacement performed by `newLayoutManager`
(GridLayoutProviderWithProps.ts, lines 181-213): the estimated visible item
count is `max(3, round(scrollAxisViewportSize / (estimatedItemSize ?? 100)))`
and the estimator becomes a fresh AverageWindow of size
`2 * (numColumns || 1) * estimatedItemCount` seeded with the previous
estimator's `currentValue`. Delegation to the external base class (layout
packing, cached-dimension update) does not touch this state. -/
def newLayoutManagerState (s : ProviderState) (renderWindowSize : Dimension) :
    ProviderState :=
  let estimatedItemCount : ℤ :=
    max 3 (jsRound
      ((if s.props.horizontal then renderWindowSize.width
        else renderWindowSize.height) /
        (s.props.estimatedItemSize.getD 100)))
  { s with
    averageWindow :=
      AverageWindow.create
        (2 * (jsNumColumns s.props.numColumns : ℤ) * estimatedItemCount)
        s.averageWindow.currentValue }

/-- The three configuration errors `validateProps` can throw
(FlashList.tsx, lines 180-217). -/
inductive ConfigError where
  | refreshBooleanMissing
  | stickyWhileHorizontalNotSupported
  | columnsWhileHorizontalNotSupported
deriving DecidableEq, Repr

/-- Embedding of `validateProps` (FlashList.tsx, lines 180-217), returning the
error thrown, or `none` when no check throws. The first check throws when
`onRefresh` is supplied and `refreshing` is not a boolean; the second when
`stickyHeaderIndices` is non-empty and the list is horizontal (JS
`Number(undefined) > 0` is false, so an absent list passes); the third when
`numColumns` exceeds 1 and the list is horizontal. The two remaining checks
only emit console warnings and never throw. -/
def validateProps (props : FLProps) : Option ConfigError :=
  if props.onRefresh && props.refreshing.isNone then
    some ConfigError.refreshBooleanMissing
  else if decide ((props.stickyHeaderIndices.getD []).length > 0)
      && props.horizontal then
    some ConfigError.stickyWhileHorizontalNotSupported
  else if decide ((props.numColumns.getD 0) > 1) && props.horizontal then
    some ConfigError.columnsWhileHorizontalNotSupported
  else
    none

/-- Embedding of the FlashList constructor's error behavior (FlashList.tsx,
lines 153-175): `validateProps` runs first, before any layout work, so an
invalid configuration aborts construction with the corresponding error and a
valid one yields the component. -/
def constructFlashList (props : FLProps) : Except ConfigError FLProps :=
  match validateProps props with
  | some e => Except.error e
  | none => Except.ok props

/-- The host's `overrideItemLayout` callback as the span and size lookups see
it: it receives the scratch record and may write `span` and `size` fields
(`none` models the callback prop being absent). -/
def runOverrideItemLayout (override : Option (ℕ → MutableLayout → MutableLayout))
    (index : ℕ) (m : MutableLayout) : MutableLayout :=
  match override with
  | none => m
  | some f => f index m

/-- Embedding of the span function FlashList supplies to the provider
(FlashList.tsx, lines 335-346): run `overrideItemLayout` on the scratch
record, then return `mutableLayout?.span ?? 1`. Returns the final scratch
record alongside the result, standing for the in-place mutation. -/
def flGetSpan (override : Option (ℕ → MutableLayout → MutableLayout))
    (index : ℕ) (m : MutableLayout) : MutableLayout × ℤ :=
  let m2 := runOverrideItemLayout override index m
  (m2, m2.span.getD 1)

/-- Embedding of the size function FlashList supplies to the provider
(FlashList.tsx, lines 347-358): run `overrideItemLayout` on the scratch
record, then return `mutableLayout?.size` (possibly undefined). -/
def flGetSize (override : Option (ℕ → MutableLayout → MutableLayout))
    (index : ℕ) (m : MutableLayout) : MutableLayout × Option ℚ :=
  let m2 := runOverrideItemLayout override index m
  (m2, m2.size)

/-- Embedding of the provider's wrapped type lookup
(GridLayoutProviderWithProps.ts, lines 66-69): the host callback receives the
shared scratch record freshly reset by `getCleanLayoutObj`, and the scratch
record it leaves behind becomes the provider's stored one. -/
def providerTypeLookup (g : ℕ → FLProps → MutableLayout → MutableLayout × ℕ)
    (s : ProviderState) (index : ℕ) : ProviderState × ℕ :=
  let r := g index s.props getCleanLayoutObj
  ({ s with layoutObject := r.1 }, r.2)

/-- Embedding of the provider's wrapped span lookup
(GridLayoutProviderWithProps.ts, lines 70-73): same reset-then-call shape. -/
def providerSpanLookup (g : ℕ → FLProps → MutableLayout → MutableLayout × ℤ)
    (s : ProviderState) (index : ℕ) : ProviderState × ℤ :=
  let r := g index s.props getCleanLayoutObj
  ({ s with layoutObject := r.1 }, r.2)

/-- Embedding of the provider's wrapped size lookup
(GridLayoutProviderWithProps.ts, lines 74-80): reset the scratch record, call
the host callback, and fall back to `averageItemSize` when it returns
undefined. -/
def providerSizeLookup
    (g : ℕ → FLProps → MutableLayout → MutableLayout × Option ℚ)
    (s : ProviderState) (index : ℕ) : ProviderState × ℚ :=
  let r := g index s.props getCleanLayoutObj
  ({ s with layoutObject := r.1 }, r.2.getD (averageItemSize s))

/-- The span lookup that `getLayoutProvider` wires end to end: FlashList's
span function composed through the provider's wrapper. -/
def flashListSpanLookup (override : Option (ℕ → MutableLayout → MutableLayout))
    (s : ProviderState) (index : ℕ) : ProviderState × ℤ :=
  providerSpanLookup (fun i _ m => flGetSpan override i m) s index

/-- One call in a provider instance's lifetime, for the expiry-monotonicity
invariant. -/
inductive ProviderOp where
  | update (props : FLProps)
  | expire
  | report (index : ℕ)
  | newManager (renderWindowSize : Dimension)
deriving Repr

/-- Apply one provider call to the provider state. -/
def stepProvider (s : ProviderState) : ProviderOp → ProviderState
  | ProviderOp.update props => updateProps s props
  | ProviderOp.expire => markExpired s
  | ProviderOp.report index => reportItemLayout s index
  | ProviderOp.newManager d => newLayoutManagerState s d

/-- Apply a finite sequence of provider calls in order. -/
def runProvider (s : ProviderState) (ops : List ProviderOp) : ProviderState :=
  ops.foldl stepProvider s

theorem jsOr_chain_eq_firstTruthy (a b c : Option ℚ) :
    (jsOr a (jsOr b c)).getD 0 = firstTruthy [a, b, c] := by
  rcases a with _ | va <;> rcases b with _ | vb <;> rcases c with _ | vc <;>
    simp [jsOr, firstTruthy] <;> split_ifs <;> simp_all [firstTruthy]

/-- C1 counterexample: the claim predicts that an edge padding explicitly set
to 0 resolves to 0 even when an axis padding is set; on the source, for
`paddingTop = 0` and `paddingVertical = 10`, `updateContentStyle` resolves
`paddingTop` to 10, because the JS `||` chain treats 0 as falsy. -/
theorem C1_counterexample :
    (updateContentStyle
        (some { paddingTop := some 0, paddingVertical := some 10 })).paddingTop = 10
    ∧ (10 : ℚ) ≠ 0 := by
  constructor
  · decide
  · norm_num

/-- C1 (amended): `updateContentStyle` resolves each edge with JS truthiness
(`||`) precedence — the first of edge-specific, axis, uniform padding that is
present and nonzero, else 0 — and the background color passes through
unresolved (`none` when absent). `firstTruthy` states the precedence in the
spec's terms for comparison with the source translation. -/
theorem C1_padding_precedence_truthy (cs : Option ContentStyle) :
    (updateContentStyle cs).paddingTop
      = firstTruthy [(cs.getD {}).paddingTop, (cs.getD {}).paddingVertical,
          (cs.getD {}).padding]
    ∧ (updateContentStyle cs).paddingBottom
      = firstTruthy [(cs.getD {}).paddingBottom, (cs.getD {}).paddingVertical,
          (cs.getD {}).padding]
    ∧ (updateContentStyle cs).paddingLeft
      = firstTruthy [(cs.getD {}).paddingLeft, (cs.getD {}).paddingHorizontal,
          (cs.getD {}).padding]
    ∧ (updateContentStyle cs).paddingRight
      = firstTruthy [(cs.getD {}).paddingRight, (cs.getD {}).paddingHorizontal,
          (cs.getD {}).padding]
    ∧ (updateContentStyle cs).backgroundColor = (cs.getD {}).backgroundColor :=
  ⟨jsOr_chain_eq_firstTruthy _ _ _, jsOr_chain_eq_firstTruthy _ _ _,
   jsOr_chain_eq_firstTruthy _ _ _, jsOr_chain_eq_firstTruthy _ _ _, rfl⟩

/-- C2 counterexample: the claim predicts that a host-reported span of 0 is
treated as 1; on the source, the span lookup is `mutableLayout?.span ?? 1`,
so a host callback that writes span 0 makes the lookup return 0. -/
theorem C2_counterexample :
    (flashListSpanLookup (some fun _ m => { m with span := some 0 })
        (mkProvider {}) 0).2 = 0
    ∧ (0 : ℤ) ≠ 1 := by
  constructor
  · decide
  · decide

/-- C2 (amended): the span lookup replaces only an absent (undefined) span
with 1; any span value the host writes — including 0 or a negative number —
passes through unchanged. -/
theorem C2_span_default_only_when_absent
    (ov : Option (ℕ → MutableLayout → MutableLayout)) (s : ProviderState)
    (i : ℕ) :
    ((runOverrideItemLayout ov i getCleanLayoutObj).span = none →
      (flashListSpanLookup ov s i).2 = 1)
    ∧ ∀ sp : ℤ, (runOverrideItemLayout ov i getCleanLayoutObj).span = some sp →
      (flashListSpanLookup ov s i).2 = sp := by
  constructor
  · intro h
    simp [flashListSpanLookup, providerSpanLookup, flGetSpan, h]
  · intro sp h
    simp [flashListSpanLookup, providerSpanLookup, flGetSpan, h]

/-- Witness for C2 (amended): with no override callback the span lookup
returns 1; with a callback writing span -2 it returns -2. -/
theorem C2_witness :
    (flashListSpanLookup none (mkProvider {}) 0).2 = 1
    ∧ (flashListSpanLookup (some fun _ m => { m with span := some (-2) })
        (mkProvider {}) 3).2 = -2 :=
  ⟨(C2_span_default_only_when_absent none (mkProvider {}) 0).1 rfl,
   (C2_span_default_only_when_absent (some fun _ m => { m with span := some (-2) })
      (mkProvider {}) 3).2 (-2) rfl⟩

theorem hasExpired_mono_step (s : ProviderState) (op : ProviderOp)
    (h : s.hasExpired = true) : (stepProvider s op).hasExpired = true := by
  cases op with
  | update p => simp [stepProvider, updateProps, h]
  | expire => simp [stepProvider, markExpired]
  | report i =>
    rcases hl : s.layouts with _ | ls
    · simpa [stepProvider, reportItemLayout, hl] using h
    · rcases hi : ls[i]? with _ | l
      · simpa [stepProvider, reportItemLayout, hl, hi] using h
      · simpa [stepProvider, reportItemLayout, hl, hi] using h
  | newManager d => simpa [stepProvider, newLayoutManagerState] using h

/-- C3: `hasExpired` is monotonic — once true, it stays true under every
finite sequence of `updateProps`, `markExpired`, `reportItemLayout` and
`newLayoutManager` calls; in particular no `updateProps` call resets it. -/
theorem C3_hasExpired_monotonic (s : ProviderState) (ops : List ProviderOp)
    (h : s.hasExpired = true) : (runProvider s ops).hasExpired = true := by
  induction ops generalizing s with
  | nil => exact h
  | cons op rest ih => exact ih (stepProvider s op) (hasExpired_mono_step s op h)

/-- Witness for C3: a freshly constructed provider marked expired stays
expired after an `updateProps`, a `newLayoutManager` and a `reportItemLayout`
call. -/
theorem C3_witness :
    (markExpired (mkProvider {})).hasExpired = true
    ∧ (runProvider (markExpired (mkProvider {}))
        [ProviderOp.update { numColumns := some 2 }, ProviderOp.newManager ⟨0, 0⟩,
         ProviderOp.report 0]).hasExpired = true :=
  ⟨rfl, C3_hasExpired_monotonic (markExpired (mkProvider {})) _ rfl⟩

/-- C4: `reportItemLayout` is a silent no-op when no layout manager exists or
the index has no layout entry, and otherwise sets that entry's `isOverridden`
flag and feeds the entry's scroll-axis size (width when horizontal, height
otherwise) to the estimator; the function is total, so it never throws. -/
theorem C4_reportItemLayout_spec (s : ProviderState) (i : ℕ) :
    (s.layouts = none → reportItemLayout s i = s)
    ∧ (∀ ls : List LayoutEntry, s.layouts = some ls → ls[i]? = none →
        reportItemLayout s i = s)
    ∧ ∀ (ls : List LayoutEntry) (l : LayoutEntry),
        s.layouts = some ls → ls[i]? = some l →
        reportItemLayout s i
          = { s with
              layouts := some (ls.set i { l with isOverridden := true })
              averageWindow := s.averageWindow.addValue
                (if s.props.horizontal then l.width else l.height) } := by
  refine ⟨?_, ?_, ?_⟩
  · intro h
    simp [reportItemLayout, h]
  · intro ls hls hi
    simp [reportItemLayout, hls, hi]
  · intro ls l hls hi
    simp [reportItemLayout, hls, hi]

/-- Witness for C4: on a vertical provider with one 30x40 entry, reporting
index 0 marks the entry overridden and records the height 40; reporting the
out-of-range index 5 changes nothing. -/
theorem C4_witness :
    reportItemLayout
        { mkProvider {} with layouts := some [{ width := 30, height := 40 }] } 0
      = { mkProvider {} with
          layouts := some [{ width := 30, height := 40, isOverridden := true }]
          averageWindow := ⟨1, 100, [40]⟩ }
    ∧ reportItemLayout
        { mkProvider {} with layouts := some [{ width := 30, height := 40 }] } 5
      = { mkProvider {} with layouts := some [{ width := 30, height := 40 }] } := by
  constructor
  · rw [(C4_reportItemLayout_spec
        { mkProvider {} with layouts := some [{ width := 30, height := 40 }] } 0).2.2
        [{ width := 30, height := 40 }] { width := 30, height := 40 } rfl rfl]
    rfl
  · exact (C4_reportItemLayout_spec
      { mkProvider {} with layouts := some [{ width := 30, height := 40 }] } 5).2.1
      [{ width := 30, height := 40 }] rfl rfl

/-- C5: for a host-contract-conforming column count (numColumns at least 1,
per the spec's interface contract), `newLayoutManager` replaces the estimator
with a fresh AverageWindow whose window size is
2 * numColumns * max(3, round(scrollAxisViewportSize / estimatedItemSize)) —
the scroll-axis viewport size being the width for a horizontal list and the
height otherwise, and the estimated item size defaulting to 100 when the prop
is absent — seeded with the previous estimator's currentValue and holding no
samples yet. -/
theorem C5_newLayoutManager_estimator (s : ProviderState) (d : Dimension)
    (c : ℕ) (hc : s.props.numColumns = some c) (h1 : 1 ≤ c) :
    (newLayoutManagerState s d).averageWindow
      = AverageWindow.create
          (2 * (c : ℤ) *
            max 3 (jsRound
              ((if s.props.horizontal then d.width else d.height)
                / s.props.estimatedItemSize.getD 100)))
          s.averageWindow.currentValue := by
  have hnz : ¬c = 0 := by omega
  simp [newLayoutManagerState, jsNumColumns, hc, hnz]

/-- Witness for C5: two columns, estimated item size 50, vertical viewport of
height 400 — the new estimator has window size 2 * 2 * max(3, round(400/50))
= 32 and is seeded with the previous currentValue 50. -/
theorem C5_witness :
    (newLayoutManagerState
        (mkProvider { numColumns := some 2, estimatedItemSize := some 50 })
        ⟨300, 400⟩).averageWindow
      = AverageWindow.create 32 50 := by
  rw [C5_newLayoutManager_estimator
    (mkProvider { numColumns := some 2, estimatedItemSize := some 50 })
    ⟨300, 400⟩ 2 rfl (by norm_num)]
  norm_num [mkProvider, AverageWindow.create, AverageWindow.currentValue, jsRound]

/-- C6: `updateProps` leaves the provider expired exactly when it already was,
or the new numColumns differs from the stored one, or the layout-affecting
insets recomputed from the new contentContainerStyle and orientation differ
in height or width from the stored insets. (The TS method returns `this`; the
state-passing embedding models that by returning the updated state.) -/
theorem C6_updateProps_expiry (s : ProviderState) (p : FLProps) :
    (updateProps s p).hasExpired = true ↔
      s.hasExpired = true
      ∨ s.props.numColumns ≠ p.numColumns
      ∨ (applyContentContainerInsetForLayoutManager ⟨0, 0⟩
          p.contentContainerStyle p.horizontal).height
          ≠ s.renderWindowInsets.height
      ∨ (applyContentContainerInsetForLayoutManager ⟨0, 0⟩
          p.contentContainerStyle p.horizontal).width
          ≠ s.renderWindowInsets.width := by
  simp [updateProps, or_assoc]

/-- C7: constructing a FlashList throws exactly when one of the three
configuration checks fires — onRefresh supplied while refreshing is not a
boolean, a non-empty stickyHeaderIndices on a horizontal list, or more than
one column on a horizontal list; a configuration passing all three checks
constructs without a configuration error. -/
theorem C7_validateProps_spec (p : FLProps) :
    (∃ e, constructFlashList p = Except.error e) ↔
      (p.onRefresh = true ∧ p.refreshing = none)
      ∨ (0 < (p.stickyHeaderIndices.getD []).length ∧ p.horizontal = true)
      ∨ (1 < p.numColumns.getD 0 ∧ p.horizontal = true) := by
  have hiff : (∃ e, constructFlashList p = Except.error e)
      ↔ (validateProps p).isSome := by
    unfold constructFlashList
    cases h : validateProps p <;> simp
  rw [hiff]
  unfold validateProps
  split_ifs with h1 h2 h3 <;> simp_all

/-- C9: every one of the provider's three per-index lookups hands the host
callback the scratch record reset by getCleanLayoutObj — span and size both
undefined — so the lookup results and resulting state do not depend on what a
previous callback left in the shared scratch record; and the size lookup
returns the host-written override size when present and the estimator's
currentValue (averageItemSize) otherwise. -/
theorem C9_scratch_reset_and_size_default
    (gT : ℕ → FLProps → MutableLayout → MutableLayout × ℕ)
    (gSp : ℕ → FLProps → MutableLayout → MutableLayout × ℤ)
    (gSz : ℕ → FLProps → MutableLayout → MutableLayout × Option ℚ)
    (ov : Option (ℕ → MutableLayout → MutableLayout))
    (s : ProviderState) (m : MutableLayout) (i : ℕ) :
    getCleanLayoutObj.span = none ∧ getCleanLayoutObj.size = none
    ∧ providerTypeLookup gT { s with layoutObject := m } i
        = providerTypeLookup gT s i
    ∧ providerSpanLookup gSp { s with layoutObject := m } i
        = providerSpanLookup gSp s i
    ∧ providerSizeLookup gSz { s with layoutObject := m } i
        = providerSizeLookup gSz s i
    ∧ (providerSizeLookup (fun j _ mm => flGetSize ov j mm) s i).2
        = ((runOverrideItemLayout ov i getCleanLayoutObj).size).getD
            (averageItemSize s) :=
  ⟨rfl, rfl, rfl, rfl, rfl, rfl⟩

/-- C10: when estimatedItemSize is absent the provider uses the default 100
everywhere — the constructor seeds the AverageWindow with 100, so
averageItemSize is 100 before any measurement is reported, and
newLayoutManager divides the scroll-axis viewport size by 100 in its window
size computation. -/
theorem C10_default_estimated_item_size (p : FLProps) (s : ProviderState)
    (d : Dimension) (hp : p.estimatedItemSize = none)
    (hs : s.props.estimatedItemSize = none) :
    (mkProvider p).averageWindow.seed = 100
    ∧ (mkProvider p).averageWindow.currentValue = 100
    ∧ (newLayoutManagerState s d).averageWindow.size
        = 2 * (jsNumColumns s.props.numColumns : ℤ)
            * max 3 (jsRound
                ((if s.props.horizontal then d.width else d.height) / 100)) := by
  refine ⟨?_, ?_, ?_⟩
  · simp [mkProvider, AverageWindow.create, hp]
  · simp [mkProvider, AverageWindow.create, AverageWindow.currentValue, hp]
  · simp [newLayoutManagerState, AverageWindow.create, hs]

/-- Witness for C10: default props and a vertical viewport of height 350 —
the seed and currentValue are 100 and the new window size is
2 * 1 * max(3, round(350/100)) = 8. -/
theorem C10_witness :
    (mkProvider {}).averageWindow.seed = 100
    ∧ (mkProvider {}).averageWindow.currentValue = 100
    ∧ (newLayoutManagerState (mkProvider {}) ⟨0, 350⟩).averageWindow.size = 8 := by
  have h := C10_default_estimated_item_size {} (mkProvider {}) ⟨0, 350⟩ rfl rfl
  refine ⟨h.1, h.2.1, h.2.2.trans ?_⟩
  norm_num [jsNumColumns, mkProvider, jsRound]

/-- C8: `applyContentContainerInsetForLayoutManager` returns the dimension
with the resolved paddingTop + paddingBottom subtracted from its height when
horizontal (width unchanged), else the resolved paddingLeft + paddingRight
subtracted from its width (height unchanged) — the TS function performs this
update in place on the dim object it was given and returns it — and
`getContentContainerPadding` returns exactly the complementary axis pair:
top/bottom when horizontal, left/right otherwise. -/
theorem C8_inset_and_decorative_padding (dim : Dimension)
    (cs : Option ContentStyle) (horizontal : Bool) :
    (applyContentContainerInsetForLayoutManager dim cs horizontal).width
      = (if horizontal then dim.width
         else dim.width - ((updateContentStyle cs).paddingLeft
            + (updateContentStyle cs).paddingRight))
    ∧ (applyContentContainerInsetForLayoutManager dim cs horizontal).height
      = (if horizontal then
           dim.height - ((updateContentStyle cs).paddingTop
            + (updateContentStyle cs).paddingBottom)
         else dim.height)
    ∧ getContentContainerPadding (updateContentStyle cs) horizontal
      = (if horizontal then
           { paddingTop := some (updateContentStyle cs).paddingTop
             paddingBottom := some (updateContentStyle cs).paddingBottom }
         else
           { paddingLeft := some (updateContentStyle cs).paddingLeft
             paddingRight := some (updateContentStyle cs).paddingRight }) := by
  cases horizontal <;>
    simp [applyContentContainerInsetForLayoutManager, getContentContainerPadding]
